import Mathlib

/-!
Verification of the uBLAS tensor extension (BoostGSoC21/ublas):
the `span` range selector (include/boost/numeric/ublas/tensor/span.hpp)
and the subtensor `tensor_core` (subtensor.hpp).

Machine integers: `span::value_type` is `std::ptrdiff_t`, a signed 64-bit
type; signed overflow is undefined behaviour in C++, so the embedding uses
unbounded `Int` for it.  Sizes and indices of the tensor core
(`std::size_t`) are modelled as `Nat`.

Failure (a thrown exception) is modelled with `Except Err`; the `Err`
constructor records which standard exception type the source throws.
-/

namespace ublas

/-- The C++ exception kinds thrown by the modelled code:
`std::invalid_argument`, `std::out_of_range` (from `container.at`),
and `std::runtime_error` (from the span constructor). -/
inductive Err where
  | invalidArgument
  | outOfRange
  | runtimeError
  deriving DecidableEq, Repr

instance {ε α : Type} [DecidableEq ε] [DecidableEq α] : DecidableEq (Except ε α) := fun x y =>
  match x, y with
  | .ok a, .ok b =>
      if h : a = b then .isTrue (by rw [h])
      else .isFalse (by intro hc; injection hc; contradiction)
  | .error a, .error b =>
      if h : a = b then .isTrue (by rw [h])
      else .isFalse (by intro hc; injection hc; contradiction)
  | .ok _, .error _ => .isFalse (fun hc => Except.noConfusion hc)
  | .error _, .ok _ => .isFalse (fun hc => Except.noConfusion hc)

/-- From span.hpp line 38:
`static constexpr inline std::size_t max = std::numeric_limits<std::ptrdiff_t>::max();`
On the 64-bit platform `std::ptrdiff_t` is a signed 64-bit integer, so this
value is `2^63 - 1`. -/
def max : Int := 2 ^ 63 - 1

/-- `SIZE_MAX`, i.e. `std::numeric_limits<std::size_t>::max()`, on the same
64-bit platform: `2^64 - 1`.  Not defined by the repository; written out
here only to compare the spec's sentinel with the source's `max`. -/
def SIZE_MAX : Int := 2 ^ 64 - 1

/-- The state of a `span<>` object: fields `first_`, `last_`, `step_`
(declaration order of span.hpp line 119), each of type
`value_type = std::ptrdiff_t`. -/
structure Span where
  first : Int
  last : Int
  step : Int
  deriving DecidableEq, Repr

/-- The three-argument constructor `span(f, s, l)` (span.hpp lines 73-81):
initialises `first_ = f`, `step_ = s`, `last_ = l` and throws
`std::runtime_error` when `s == 0 && f != l`. -/
def mkSpan3 (f s l : Int) : Except Err Span :=
  if s = 0 ∧ f ≠ l then .error .runtimeError
  else .ok { first := f, last := l, step := s }

/-- The single-argument constructor `span(l)` (span.hpp lines 59-62):
delegates to `span(0, 1, l)`. -/
def mkSpan1 (l : Int) : Except Err Span :=
  mkSpan3 0 1 l

/-- The two-argument constructor `span(f, l)` (span.hpp lines 66-69):
delegates to `span(f, 1, l)`. -/
def mkSpan2 (f l : Int) : Except Err Span :=
  mkSpan3 f 1 l

/-- The default constructor `span()` (span.hpp lines 49-54):
`first_{}` (zero), `last_{max}`, `step_{1}`. -/
def spanDefault : Span :=
  { first := 0, last := max, step := 1 }

/-- `span::operator[](idx)` (span.hpp lines 104-107): returns
`first_ + idx * step_`.  The source's `idx` is a `std::size_t`; it is
modelled as the mathematical value of the index. -/
def Span.get (s : Span) (idx : Int) : Int :=
  s.first + idx * s.step

/-- `span::operator()(rhs)` (span.hpp lines 109-116): composition, built
through the throwing three-argument constructor:
`span(rhs.first_*lhs.step_ + lhs.first_, lhs.step_*rhs.step_, rhs.last_*lhs.step_ + lhs.first_)`. -/
def Span.compose (lhs rhs : Span) : Except Err Span :=
  mkSpan3 (rhs.first * lhs.step + lhs.first)
          (lhs.step * rhs.step)
          (rhs.last * lhs.step + lhs.first)

/-- The construction invariant every `span` object satisfies: the
three-argument constructor rejects `step = 0` unless `first = last`,
and every other constructor produces `step = 1`. -/
def Span.wf (s : Span) : Prop :=
  s.step ≠ 0 ∨ s.first = s.last

instance (s : Span) : Decidable s.wf := by
  unfold Span.wf; infer_instance

/-- Helper: for well-formed arguments the zero-step check inside the
constructor call of `Span.compose` can never fire. -/
theorem compose_check_clear (a b : Span) (hb : b.wf) :
    ¬(a.step * b.step = 0 ∧
      b.first * a.step + a.first ≠ b.last * a.step + a.first) := by
  rintro ⟨hz, hne⟩
  rcases mul_eq_zero.mp hz with h0 | h0
  · exact hne (by rw [h0]; ring)
  · rcases hb with hb | hb
    · exact hb h0
    · exact hne (by rw [hb])

end ublas

open ublas

/-- C2: construction of `span(f, s, l)` fails (with the runtime-error
exception the source throws) exactly when `s = 0` and `f ≠ l`; otherwise it
succeeds with fields `first = f`, `step = s`, `last = l`.  In particular
`span(1,0,5)` fails and `span(1,0,1)` succeeds. -/
theorem thm_C2_zero_step_reject :
    (∀ f s l : Int,
      ((∃ sp, mkSpan3 f s l = .ok sp ∧
              sp.first = f ∧ sp.step = s ∧ sp.last = l) ↔ ¬(s = 0 ∧ f ≠ l)) ∧
      ((∃ e, mkSpan3 f s l = .error e) ↔ (s = 0 ∧ f ≠ l))) ∧
    mkSpan3 1 0 5 = .error .runtimeError ∧
    mkSpan3 1 0 1 = .ok { first := 1, last := 1, step := 0 } := by
  refine ⟨fun f s l => ?_, by decide, by decide⟩
  unfold mkSpan3
  by_cases h : s = 0 ∧ f ≠ l
  · simp [h]
  · simp [h]

/-- C3 counterexample: the default-constructed span's `last` field is the
source's `max` sentinel, `std::numeric_limits<std::ptrdiff_t>::max() = 2^63 - 1`,
which is not `SIZE_MAX = 2^64 - 1`. -/
theorem cex_C3_sentinel :
    spanDefault.last = max ∧ max = 2 ^ 63 - 1 ∧ SIZE_MAX = 2 ^ 64 - 1 ∧
    spanDefault.last ≠ SIZE_MAX := by
  refine ⟨rfl, rfl, rfl, ?_⟩
  decide

/-- C3 (amended): a default-constructed (full-range) span has
`first = 0`, `step = 1`, and `last` equal to the `PTRDIFF_MAX` sentinel
(`2^63 - 1` on the 64-bit platform) meaning "to the end". -/
theorem thm_C3_default_span :
    spanDefault.first = 0 ∧ spanDefault.step = 1 ∧
    spanDefault.last = max ∧ max = 2 ^ 63 - 1 :=
  ⟨rfl, rfl, rfl, rfl⟩

/-- C5: for every `l`, the single-argument constructor `span(l)` produces
the span with `first = 0`, `step = 1`, `last = l` — the range `[0, l)`
with step 1, identical to `span(0, 1, l)` — and not a single-point
selector at index `l` (witnessed at `l = 5`). -/
theorem thm_C5_single_arg_range :
    (∀ l : Int,
      mkSpan1 l = .ok { first := 0, last := l, step := 1 } ∧
      mkSpan1 l = mkSpan3 0 1 l) ∧
    mkSpan1 5 ≠ .ok { first := 5, last := 6, step := 1 } := by
  constructor
  · intro l
    constructor
    · unfold mkSpan1 mkSpan3
      simp
    · rfl
  · decide

/-- C4: for well-formed spans `a` and `b`, the composition `a(b)` is the
span with `first = b.first*a.step + a.first`, `step = a.step*b.step`,
`last = b.last*a.step + a.first`; with `operator[](idx) = first + idx*step`
the identities `a(b)[0] = a[b.first()]` and `s[0] = s.first()` hold. -/
theorem thm_C4_compose_formula (a b : Span) (ha : a.wf) (hb : b.wf) :
    a.compose b = .ok { first := b.first * a.step + a.first,
                        last := b.last * a.step + a.first,
                        step := a.step * b.step } ∧
    Span.get { first := b.first * a.step + a.first,
               last := b.last * a.step + a.first,
               step := a.step * b.step } 0 = a.get b.first ∧
    (∀ s : Span, s.get 0 = s.first) := by
  refine ⟨?_, ?_, fun s => by unfold Span.get; ring⟩
  · unfold Span.compose mkSpan3
    rw [if_neg (compose_check_clear a b hb)]
  · unfold Span.get
    ring

/-- Witness for C4 at `a = [1:2:7]`, `b = [0:1:3]`. -/
theorem wit_C4 :
    Span.wf { first := 1, last := 7, step := 2 } ∧
    Span.wf { first := 0, last := 3, step := 1 } ∧
    Span.compose { first := 1, last := 7, step := 2 }
                 { first := 0, last := 3, step := 1 } =
      .ok { first := 1, last := 7, step := 2 } :=
  ⟨by decide, by decide,
   (thm_C4_compose_formula
      { first := 1, last := 7, step := 2 }
      { first := 0, last := 3, step := 1 }
      (by decide) (by decide)).1⟩

/-- C10: for spans `a` and `b` satisfying the construction invariant
(`step ≠ 0` or `first = last`), the composition `a(b)` never fails — the
zero-step branch of the three-argument constructor is unreachable — and
the resulting span satisfies the invariant again. -/
theorem thm_C10_compose_total (a b : Span) (ha : a.wf) (hb : b.wf) :
    ∃ c, a.compose b = .ok c ∧ c.wf := by
  refine ⟨{ first := b.first * a.step + a.first,
            last := b.last * a.step + a.first,
            step := a.step * b.step }, ?_, ?_⟩
  · unfold Span.compose mkSpan3
    rw [if_neg (compose_check_clear a b hb)]
  · by_cases hz : a.step * b.step = 0
    · right
      have h := compose_check_clear a b hb
      by_contra hne
      exact h ⟨hz, hne⟩
    · left; exact hz

/-- Witness for C10 at `a = [2:3:11]`, `b = [1:1:4]`. -/
theorem wit_C10 :
    Span.wf { first := 2, last := 11, step := 3 } ∧
    Span.wf { first := 1, last := 4, step := 1 } ∧
    (∃ c, Span.compose { first := 2, last := 11, step := 3 }
                       { first := 1, last := 4, step := 1 } = .ok c ∧ c.wf) :=
  ⟨by decide, by decide,
   thm_C10_compose_total
     { first := 2, last := 11, step := 3 }
     { first := 1, last := 4, step := 1 }
     (by decide) (by decide)⟩

namespace ublas

/-- Modelled from the spec: `ublas::product` (extents.hpp, not under src/) —
"product of sizes = total element count". -/
def product (ns : List Nat) : Nat :=
  ns.foldl (fun a b => a * b) 1

/-- Modelled from the spec: `ublas::to_strides` (index_functions.hpp, not
under src/) — "strides[d] is the linear-offset delta for moving one unit
along dimension d", first-dimension-contiguous layout, one stride per
extent: `strides[d] = product(extents[0..d))`. -/
def to_strides (ns : List Nat) : List Nat :=
  (List.range ns.length).map (fun d => product (ns.take d))

/-- Modelled from the spec: `ublas::detail::to_index` (index_functions.hpp,
not under src/) — "resolves to a physical offset via the stride-weighted
dot-product of indices". -/
def to_index (w is : List Nat) : Nat :=
  (List.zipWith (fun a b => a * b) w is).foldl (fun a b => a + b) 0

/-- `std::vector::at`: bounds-checked element access throwing
`std::out_of_range`. -/
def container_at (c : List Int) (i : Nat) : Except Err Int :=
  if h : i < c.length then .ok (c.get ⟨i, h⟩) else .error .outOfRange

/-- The state of `tensor_core<subtensor_engine<T>>` (subtensor.hpp lines
354-356): `_extents`, `_strides`, `_container`, with `T` instantiated at a
signed integer element type. -/
structure TensorCore where
  extents : List Nat
  strides : List Nat
  container : List Int
  deriving DecidableEq, Repr

/-- `rank()` (line 338): `_extents.size()`; `order()` (line 339) is the
same. -/
def TensorCore.rank (t : TensorCore) : Nat :=
  t.extents.length

/-- `size()` (line 336): `_container.size()`. -/
def TensorCore.size (t : TensorCore) : Nat :=
  t.container.length

/-- The shape constructor (lines 88-95): `_extents{size_type(is)...}`,
`_strides(to_strides(_extents, layout))`,
`_container(product(_extents))` — value-initialised storage. -/
def mkTensor (sizes : List Nat) : TensorCore :=
  { extents := sizes
  , strides := to_strides sizes
  , container := List.replicate (product sizes) 0 }

/-- `t.at(is...)` after overload resolution: one integral argument selects
the linear checked access `at(size_type)` (lines 236-251), which is a
plain bounds-checked container lookup; two or more arguments select the
multi-index overload `at(I1, I2, Is...)` (lines 140-174), which throws
`std::invalid_argument` when the index count differs from `order()` and
otherwise looks up `to_index(_strides, is...)` in the container.  A call
with zero indices does not compile in the source and is mapped to the
multi-index branch here. -/
def tensor_at (t : TensorCore) (is : List Nat) : Except Err Int :=
  match is with
  | [i] => container_at t.container i
  | _ =>
    if is.length ≠ t.rank then .error .invalidArgument
    else container_at t.container (to_index t.strides is)

/-- `operator()(Is...)` for integral indices (lines 186-205): delegates to
`at(is...)`. -/
def tensor_call (t : TensorCore) (is : List Nat) : Except Err Int :=
  tensor_at t is

/-- `operator=(const_reference v)` (lines 124-128):
`std::fill_n(_container.begin(), _container.size(), v)`, returns `*this`. -/
def assign_scalar (t : TensorCore) (v : Int) : TensorCore :=
  { t with container := List.replicate t.container.length v }

/-- `friend swap(lhs, rhs)` (lines 275-280): `std::swap` of `_extents`,
`_strides`, `_container`; returns the post-states of `(lhs, rhs)`. -/
def swapT (lhs rhs : TensorCore) : TensorCore × TensorCore :=
  ({ extents := rhs.extents, strides := rhs.strides, container := rhs.container },
   { extents := lhs.extents, strides := lhs.strides, container := lhs.container })

/-- `operator=(tensor_core other)` (lines 117-122): copy-and-swap; the
post-state of `*this` is the first component of the swap. -/
def assign_copy (t other : TensorCore) : TensorCore :=
  (swapT t other).1

/-- `operator()(index_type<I> p, index_types... ps)` (lines 262-273):
Einstein placeholder call; throws `std::invalid_argument` when the tag
count differs from `order()`, else returns
`make_pair(cref(*this), make_tuple(p, ps...))`.  Placeholder tags are
modelled by their compile-time ids. -/
def einstein_call (t : TensorCore) (tags : List Nat) :
    Except Err (TensorCore × List Nat) :=
  if tags.length ≠ t.rank then .error .invalidArgument
  else .ok (t, tags)

/-- The shape invariant: one stride per extent. -/
def TensorCore.wfT (t : TensorCore) : Prop :=
  t.strides.length = t.extents.length

instance (t : TensorCore) : Decidable t.wfT := by
  unfold TensorCore.wfT; infer_instance

end ublas

/-- C1 (amended): for every tensor and every tuple of at least two integral
indices whose count differs from the tensor's order, checked access
`at(indices...)` and the call-operator form both fail with
`std::invalid_argument`; a single supplied index instead resolves to the
linear checked-access overload, a bounds-checked container lookup that
never raises invalid-argument. -/
theorem thm_C1_wrong_count :
    (∀ (t : TensorCore) (is : List Nat), 2 ≤ is.length → is.length ≠ t.rank →
      tensor_at t is = .error .invalidArgument ∧
      tensor_call t is = .error .invalidArgument) ∧
    (∀ (t : TensorCore) (i : Nat),
      tensor_at t [i] = container_at t.container i ∧
      tensor_at t [i] ≠ .error .invalidArgument) := by
  constructor
  · intro t is h2 hne
    match is, h2 with
    | i1 :: i2 :: rest, _ =>
      constructor
      · simp only [tensor_at]
        rw [if_pos hne]
      · simp only [tensor_call, tensor_at]
        rw [if_pos hne]
  · intro t i
    refine ⟨rfl, ?_⟩
    show container_at t.container i ≠ _
    unfold container_at
    split
    · simp
    · simp

/-- Witness for C1 at a rank-3 tensor of shape (2,3,4) accessed with the
two indices (0,1). -/
theorem wit_C1 :
    2 ≤ ([0, 1] : List Nat).length ∧
    ([0, 1] : List Nat).length ≠ (mkTensor [2, 3, 4]).rank ∧
    tensor_at (mkTensor [2, 3, 4]) [0, 1] = .error .invalidArgument :=
  ⟨by decide, by decide,
   (thm_C1_wrong_count.1 (mkTensor [2, 3, 4]) [0, 1] (by decide) (by decide)).1⟩

/-- C1 counterexample: on the rank-3 tensor of shape (2,3,4), the
single-index call `at(1)` (and `t(1)`) does not raise invalid-argument —
it is the linear checked access and succeeds, returning element 0 of the
zero-initialised storage. -/
theorem cex_C1_single_index :
    (mkTensor [2, 3, 4]).rank = 3 ∧
    tensor_at (mkTensor [2, 3, 4]) [1] = .ok 0 ∧
    tensor_at (mkTensor [2, 3, 4]) [1] ≠ .error .invalidArgument ∧
    tensor_call (mkTensor [2, 3, 4]) [1] ≠ .error .invalidArgument := by
  decide

/-- C6: a tensor constructed from a sequence of sizes has
`size() = product(extents)`, `rank() =` the number of sizes, and as many
strides as extents; the strides-extents length equality is preserved by
swap, copy assignment and scalar assignment. -/
theorem thm_C6_shape_invariants :
    (∀ sizes : List Nat,
      (mkTensor sizes).size = product sizes ∧
      (mkTensor sizes).rank = sizes.length ∧
      (mkTensor sizes).strides.length = (mkTensor sizes).extents.length) ∧
    (∀ a b : TensorCore, a.wfT → b.wfT →
      (swapT a b).1.wfT ∧ (swapT a b).2.wfT) ∧
    (∀ t other : TensorCore, other.wfT → (assign_copy t other).wfT) ∧
    (∀ (t : TensorCore) (v : Int), t.wfT → (assign_scalar t v).wfT) := by
  refine ⟨fun sizes => ⟨?_, rfl, ?_⟩, fun a b ha hb => ⟨hb, ha⟩,
          fun t other ho => ho, fun t v ht => ht⟩
  · simp [mkTensor, TensorCore.size]
  · simp [mkTensor, to_strides]

/-- Witness for C6: a shape-(2,3) and a shape-(4) tensor, and their swap. -/
theorem wit_C6 :
    TensorCore.wfT (mkTensor [2, 3]) ∧ TensorCore.wfT (mkTensor [4]) ∧
    TensorCore.wfT (swapT (mkTensor [2, 3]) (mkTensor [4])).1 :=
  ⟨by decide, by decide,
   (thm_C6_shape_invariants.2.1 (mkTensor [2, 3]) (mkTensor [4])
      (by decide) (by decide)).1⟩

/-- C7: scalar broadcast assignment `t = v` fills the whole backing
storage with `v` while leaving extents and strides unchanged (the returned
object is `t` itself); on a shape-(2,2) tensor all 4 elements become `v`. -/
theorem thm_C7_scalar_broadcast :
    (∀ (t : TensorCore) (v : Int),
      (assign_scalar t v).container = List.replicate t.size v ∧
      (assign_scalar t v).extents = t.extents ∧
      (assign_scalar t v).strides = t.strides) ∧
    (∀ v : Int, (assign_scalar (mkTensor [2, 2]) v).container = [v, v, v, v]) := by
  refine ⟨fun t v => ⟨rfl, rfl, rfl⟩, fun v => ?_⟩
  show List.replicate (List.replicate (product [2, 2]) (0 : Int)).length v = _
  simp [product]

/-- C8: `swap(a, b)` exchanges exactly the extents, strides and backing
storage of the two tensor-cores (a total function — it cannot fail), and
swapping twice restores both original states. -/
theorem thm_C8_swap_involution :
    ∀ a b : TensorCore,
      (swapT a b).1.extents = b.extents ∧
      (swapT a b).1.strides = b.strides ∧
      (swapT a b).1.container = b.container ∧
      (swapT a b).2.extents = a.extents ∧
      (swapT a b).2.strides = a.strides ∧
      (swapT a b).2.container = a.container ∧
      swapT (swapT a b).1 (swapT a b).2 = (a, b) :=
  fun a b => ⟨rfl, rfl, rfl, rfl, rfl, rfl, rfl⟩

/-- C9: the Einstein placeholder call fails with `std::invalid_argument`
exactly when the number of supplied tags differs from the tensor's order;
otherwise it returns the descriptor pairing the (unchanged) tensor with
the tuple of tags. -/
theorem thm_C9_einstein (t : TensorCore) (tags : List Nat) (hne : tags ≠ []) :
    (einstein_call t tags = .error .invalidArgument ↔ tags.length ≠ t.rank) ∧
    (tags.length = t.rank → einstein_call t tags = .ok (t, tags)) := by
  unfold einstein_call
  by_cases h : tags.length = t.rank
  · simp [h]
  · simp [h]

/-- Witness for C9: a rank-1 tensor called with one placeholder tag. -/
theorem wit_C9 :
    ([7] : List Nat) ≠ [] ∧
    einstein_call (mkTensor [5]) [7] = .ok (mkTensor [5], [7]) :=
  ⟨by decide, (thm_C9_einstein (mkTensor [5]) [7] (by decide)).2 (by decide)⟩
